import Mathlib

/- Shallow embedding of the ESP32-RAK3172 driver.
   The definitions below are translated from
   src/src/Protocols/LoRaWAN/rak3172_lorawan.cpp,
   src/src/Protocols/P2P/rak3172_p2p_rui3.cpp and
   src/include/Definitions/rak3172_defs.h.
   The UART command engine (RAK3172_SendCommand) lives outside these sources;
   it is represented by an oracle mapping each sent command line to the
   structured outcome the engine reports (status code, captured value for
   query forms, raw status text). -/

/-- Driver error codes, mirroring the RAK3172_ERR_* constants used by the
sources (rak3172_errors.h). -/
inductive RAK3172_Error where
  | ok
  | invalidArg
  | invalidState
  | invalidResponse
  | timeout
  | notConnected
  | fail
  deriving DecidableEq, Repr

/-- Result of one RAK3172_SendCommand round trip: the returned status code,
the captured value for a KEY=? query, and the raw status text that the
caller may inspect (e.g. for AT_BUSY_ERROR). -/
structure CmdResult where
  status : RAK3172_Error
  value : String
  statusText : String

/-- The command engine together with the attached module, as seen by the
LoRaWAN/P2P layer: a pure oracle from the command line sent to the result
of that round trip. -/
structure Engine where
  reply : String → CmdResult

/-- The slice of the RAK3172_t device handle that the embedded functions
read or write: the cached LoRaWAN join flag and join mode, and the P2P
encryption flag. -/
structure RAK3172 where
  isJoined : Bool
  joinMode : Nat
  isEncryptionEnabled : Bool

/-- Outcome of a call: a returned error code, or a crash (NULL dereference /
uncaught std::exception such as the one std::stoi raises on a non-numeric
string). -/
inductive Outcome where
  | ret : RAK3172_Error → Outcome
  | crash
  deriving DecidableEq, Repr

/-- Externally visible actions of a call, in order: a command line written to
the transport, one bounded sleep of a polling loop, one invocation of the
caller-supplied wait hook. -/
inductive Act where
  | cmd : String → Act
  | sleep
  | hook
  deriving DecidableEq, Repr

/- Frequency band enum values (RAK3172_Band_t). GetBand parses the module
reply with std::stoi, so bands are carried as integers. -/

def RAK_BAND_EU433 : Int := 0
def RAK_BAND_CN470 : Int := 1
def RAK_BAND_RU864 : Int := 2
def RAK_BAND_IN865 : Int := 3
def RAK_BAND_EU868 : Int := 4
def RAK_BAND_US915 : Int := 5
def RAK_BAND_AU915 : Int := 6
def RAK_BAND_KR920 : Int := 7
def RAK_BAND_AS923 : Int := 8

/- Sub-band enum values (RAK3172_SubBand_t): NONE = 0, ALL = 1,
SUB_BAND_1 ... SUB_BAND_12 = 2 ... 13. -/

def RAK_SUB_BAND_NONE : Nat := 0
def RAK_SUB_BAND_ALL : Nat := 1
def RAK_SUB_BAND_1 : Nat := 2
def RAK_SUB_BAND_2 : Nat := 3
def RAK_SUB_BAND_5 : Nat := 6
def RAK_SUB_BAND_9 : Nat := 10
def RAK_SUB_BAND_12 : Nat := 13

/- Join mode enum values (RAK3172_JoinMode_t). -/

def RAK_JOIN_ABP : Nat := 0
def RAK_JOIN_OTAA : Nat := 1

/-- std::to_string applied to a C++ bool (promoted to int): "1" or "0". -/
def boolToString (b : Bool) : String := if b then "1" else "0"

/-- Value of a maximal run of leading decimal digits; none when the run is
empty (std::stoi would raise std::invalid_argument). -/
def stoiDigits (cs : List Char) : Option Nat :=
  let ds := cs.takeWhile Char.isDigit
  if ds.isEmpty then none
  else some (ds.foldl (fun a c => a * 10 + (c.toNat - 48)) 0)

/-- C++ std::stoi on the strings this driver parses: skip leading whitespace,
accept one optional sign, then a non-empty run of decimal digits; trailing
characters are ignored. none models the uncaught std::invalid_argument. -/
def cppStoi (s : String) : Option Int :=
  match s.toList.dropWhile Char.isWhitespace with
  | '-' :: rest => (stoiDigits rest).map (fun n => -(n : Int))
  | '+' :: rest => (stoiDigits rest).map (fun n => (n : Int))
  | cs => (stoiDigits cs).map (fun n => (n : Int))

/-- Conversion of an int to uint8_t, as in the (uint8_t)std::stoi casts. -/
def uint8OfInt (n : Int) : Nat := (n.emod 256).toNat

/-- Conversion of an int to int8_t, as in the (int8_t)std::stoi cast. -/
def int8OfInt (n : Int) : Int := (n + 128).emod 256 - 128

/-- Conversion of an int to uint32_t, as in `uint32_t Mask = std::stoi(...)`. -/
def uint32OfInt (n : Int) : Nat := (n.emod 4294967296).toNat

/-- Hex digit rendered by sprintf with %X (uppercase). -/
def hexDigitUpper (n : Nat) : Char := "0123456789ABCDEF".toList.getD n '0'

/-- Hex digit rendered by sprintf with %x (lowercase). -/
def hexDigitLower (n : Nat) : Char := "0123456789abcdef".toList.getD n '0'

/-- sprintf("%02X", b) for a uint8_t value b: exactly two uppercase digits. -/
def byteToHexUpper (b : Nat) : List Char := [hexDigitUpper (b / 16), hexDigitUpper (b % 16)]

/-- sprintf("%02x", b) for a uint8_t value b: exactly two lowercase digits. -/
def byteToHexLower (b : Nat) : List Char := [hexDigitLower (b / 16), hexDigitLower (b % 16)]

/-- The key-material encoding loop: per input byte, sprintf("%02X", byte)
appended in input order (RAK3172_LoRaWAN_SetOTAAKeys / SetABPKeys). -/
def hexEncodeUpper : List Nat → List Char
  | [] => []
  | b :: bs => byteToHexUpper b ++ hexEncodeUpper bs

/-- The payload encoding loop: per input byte, sprintf("%02x", byte)
appended in input order (RAK3172_LoRaWAN_Transmit, RAK3172_P2P_EnableEncryption). -/
def hexEncodeLower : List Nat → List Char
  | [] => []
  | b :: bs => byteToHexLower b ++ hexEncodeLower bs

/-- Case-insensitive value of one hex character. -/
def hexVal (c : Char) : Option Nat :=
  if 48 ≤ c.toNat ∧ c.toNat ≤ 57 then some (c.toNat - 48)
  else if 65 ≤ c.toNat ∧ c.toNat ≤ 70 then some (c.toNat - 55)
  else if 97 ≤ c.toNat ∧ c.toNat ≤ 102 then some (c.toNat - 87)
  else none

/-- Case-insensitive hex decoding: two characters per byte, in input order. -/
def hexDecode : List Char → Option (List Nat)
  | [] => some []
  | [_] => none
  | c1 :: c2 :: rest =>
    match hexVal c1, hexVal c2, hexDecode rest with
    | some d1, some d2, some bs => some ((d1 * 16 + d2) :: bs)
    | _, _, _ => none

/-- sprintf("%04X", n) for the sub-band masks the driver renders
(all are below 0x10000). -/
def hex4 (n : Nat) : String :=
  String.mk [hexDigitUpper (n / 4096 % 16), hexDigitUpper (n / 256 % 16),
    hexDigitUpper (n / 16 % 16), hexDigitUpper (n % 16)]

/-- std::string::find(pat, start): smallest index at or after start where pat
occurs; none models npos. -/
def cppFind (s pat : String) (start : Nat) : Option Nat :=
  (List.range (s.length + 1)).find?
    (fun i => decide (start ≤ i) && pat.toList.isPrefixOf (s.toList.drop i))

/-- std::string::find_last_of for a one-character set: largest index holding
that character; none models npos. -/
def cppFindLastOf (s : String) (c : Char) : Option Nat :=
  ((List.range s.length).filter (fun i => s.toList.getD i (Char.ofNat 0) == c)).getLast?

/-- std::string::substr(pos, count): throws (none) when pos exceeds the size,
otherwise takes up to count characters starting at pos. -/
def cppSubstr (s : String) (pos count : Nat) : Option String :=
  if pos ≤ s.length then some (String.mk ((s.toList.drop pos).take count)) else none

/- ===== LoRaWAN accessors (rak3172_lorawan.cpp) ===== -/

/-- RAK3172_LoRaWAN_SetRetries: rejects Retries > 7, then sends AT+CFM
(enable when Retries > 0) followed by AT+RETY. Returns the error code and
the command lines written. -/
def RAK3172_LoRaWAN_SetRetries (eng : Engine) (Retries : Nat) :
    RAK3172_Error × List String :=
  if Retries > 7 then (RAK3172_Error.invalidArg, [])
  else
    let enable := decide (Retries > 0)
    let c1 := "AT+CFM=" ++ boolToString enable
    let r1 := eng.reply c1
    if r1.status ≠ RAK3172_Error.ok then (r1.status, [c1])
    else
      let c2 := "AT+RETY=" ++ toString Retries
      ((eng.reply c2).status, [c1, c2])

/-- RAK3172_LoRaWAN_GetRetries: AT+RETY=? query, (uint8_t)std::stoi parse. -/
def RAK3172_LoRaWAN_GetRetries (eng : Engine) :
    Outcome × List String × Option Nat :=
  let q := "AT+RETY=?"
  let r := eng.reply q
  let res : Outcome × Option Nat :=
    if r.status = RAK3172_Error.ok then
      match cppStoi r.value with
      | some n => (Outcome.ret RAK3172_Error.ok, some (uint8OfInt n))
      | none => (Outcome.crash, none)
    else (Outcome.ret r.status, none)
  (res.1, [q], res.2)

/-- RAK3172_LoRaWAN_SetPNM. -/
def RAK3172_LoRaWAN_SetPNM (eng : Engine) (Enable : Bool) :
    RAK3172_Error × List String :=
  let c := "AT+PNM=" ++ boolToString Enable
  ((eng.reply c).status, [c])

/-- RAK3172_LoRaWAN_GetPNM: AT+PNM=? query, (bool)std::stoi parse. -/
def RAK3172_LoRaWAN_GetPNM (eng : Engine) :
    Outcome × List String × Option Bool :=
  let q := "AT+PNM=?"
  let r := eng.reply q
  let res : Outcome × Option Bool :=
    if r.status = RAK3172_Error.ok then
      match cppStoi r.value with
      | some n => (Outcome.ret RAK3172_Error.ok, some (decide (n ≠ 0)))
      | none => (Outcome.crash, none)
    else (Outcome.ret r.status, none)
  (res.1, [q], res.2)

/-- RAK3172_LoRaWAN_SetConfirmation. -/
def RAK3172_LoRaWAN_SetConfirmation (eng : Engine) (Enable : Bool) :
    RAK3172_Error × List String :=
  let c := "AT+CFM=" ++ boolToString Enable
  ((eng.reply c).status, [c])

/-- RAK3172_LoRaWAN_GetConfirmation: AT+CFM=? query, (bool)std::stoi parse. -/
def RAK3172_LoRaWAN_GetConfirmation (eng : Engine) :
    Outcome × List String × Option Bool :=
  let q := "AT+CFM=?"
  let r := eng.reply q
  let res : Outcome × Option Bool :=
    if r.status = RAK3172_Error.ok then
      match cppStoi r.value with
      | some n => (Outcome.ret RAK3172_Error.ok, some (decide (n ≠ 0)))
      | none => (Outcome.crash, none)
    else (Outcome.ret r.status, none)
  (res.1, [q], res.2)

/-- RAK3172_LoRaWAN_SetBand: AT+BAND with the uint8 enum value. -/
def RAK3172_LoRaWAN_SetBand (eng : Engine) (Band : Nat) :
    RAK3172_Error × List String :=
  let c := "AT+BAND=" ++ toString Band
  ((eng.reply c).status, [c])

/-- RAK3172_LoRaWAN_GetBand: AT+BAND=? query, std::stoi parse cast to the
band enum. -/
def RAK3172_LoRaWAN_GetBand (eng : Engine) :
    Outcome × List String × Option Int :=
  let q := "AT+BAND=?"
  let r := eng.reply q
  let res : Outcome × Option Int :=
    if r.status = RAK3172_Error.ok then
      match cppStoi r.value with
      | some n => (Outcome.ret RAK3172_Error.ok, some n)
      | none => (Outcome.crash, none)
    else (Outcome.ret r.status, none)
  (res.1, [q], res.2)

/-- RAK3172_LoRaWAN_SetSubBand: NONE is a no-op success; otherwise queries
the band first (RAK3172_ERROR_CHECK(RAK3172_LoRaWAN_GetBand(...))); for
US915/AU915/CN470, sub-bands above 9 need CN470, ALL renders mask "0000",
and any other sub-band renders the mask 1 << (Band - 2) with %04X; every
other band yields RAK3172_ERR_FAIL. -/
def RAK3172_LoRaWAN_SetSubBand (eng : Engine) (Band : Nat) :
    Outcome × List String :=
  if Band = RAK_SUB_BAND_NONE then (Outcome.ret RAK3172_Error.ok, [])
  else
    match RAK3172_LoRaWAN_GetBand eng with
    | (Outcome.ret RAK3172_Error.ok, tr, some dummy) =>
      if dummy = RAK_BAND_US915 ∨ dummy = RAK_BAND_AU915 ∨ dummy = RAK_BAND_CN470 then
        if Band > RAK_SUB_BAND_9 ∧ dummy ≠ RAK_BAND_CN470 then
          (Outcome.ret RAK3172_Error.invalidArg, tr)
        else if Band = RAK_SUB_BAND_ALL then
          let c := "AT+MASK=0000"
          (Outcome.ret (eng.reply c).status, tr ++ [c])
        else
          let mask := 1 <<< (Band - 2)
          let c := "AT+MASK=" ++ hex4 mask
          (Outcome.ret (eng.reply c).status, tr ++ [c])
      else (Outcome.ret RAK3172_Error.fail, tr)
    | (Outcome.ret RAK3172_Error.ok, tr, none) => (Outcome.crash, tr)
    | (Outcome.ret e, tr, _) => (Outcome.ret e, tr)
    | (Outcome.crash, tr, _) => (Outcome.crash, tr)

/-- Structural helper for the shift-counting loop: the first argument is
fuel that dominates the number of halvings (mask itself always suffices). -/
def maskShiftAux : Nat → Nat → Nat
  | 0, _ => 0
  | fuel + 1, m => if m ≤ 1 then 0 else 1 + maskShiftAux fuel (m / 2)

/-- The `while(Mask != 1) { Mask >>= 1; Shifts++; }` loop of GetSubBand:
number of right shifts needed to bring a value of at least 1 down to 1
(GetSubBand only reaches it with a non-zero mask). -/
def maskShiftLoop (mask : Nat) : Nat := maskShiftAux mask mask

/-- RAK3172_LoRaWAN_GetSubBand: queries the band, reports NONE for bands
without sub-band support, then queries AT+MASK=? and parses with std::stoi
into uint32_t; mask 0 yields ALL, otherwise Shifts starts at 1, is bumped
once per right shift of the mask, and Shifts + 2 is returned. -/
def RAK3172_LoRaWAN_GetSubBand (eng : Engine) :
    Outcome × List String × Option Nat :=
  match RAK3172_LoRaWAN_GetBand eng with
  | (Outcome.ret RAK3172_Error.ok, tr, some dummy) =>
    if dummy ≠ RAK_BAND_US915 ∧ dummy ≠ RAK_BAND_AU915 ∧ dummy ≠ RAK_BAND_CN470 then
      (Outcome.ret RAK3172_Error.ok, tr, some RAK_SUB_BAND_NONE)
    else
      let q := "AT+MASK=?"
      let r := eng.reply q
      let res : Outcome × Option Nat :=
        if r.status = RAK3172_Error.ok then
          match cppStoi r.value with
          | some m =>
            let mask := uint32OfInt m
            if mask = 0 then (Outcome.ret RAK3172_Error.ok, some RAK_SUB_BAND_ALL)
            else (Outcome.ret RAK3172_Error.ok, some ((1 + maskShiftLoop mask) + 2))
          | none => (Outcome.crash, none)
        else (Outcome.ret r.status, none)
      (res.1, tr ++ [q], res.2)
  | (Outcome.ret RAK3172_Error.ok, tr, none) => (Outcome.crash, tr, none)
  | (Outcome.ret e, tr, _) => (Outcome.ret e, tr, none)
  | (Outcome.crash, tr, _) => (Outcome.crash, tr, none)

/-- The transmit-power index computation of RAK3172_LoRaWAN_SetTxPwr:
EU868 caps at 16 dBm EIRP (below EIRP - 14 gives index 10), US915 caps at
30 dBm (below 10 gives index 10); any other band leaves the index at 0. -/
def txPwrIndex (band : Int) (TxPwr : Nat) : Nat :=
  if band = RAK_BAND_EU868 then
    if TxPwr ≥ 16 then 0
    else if TxPwr < 16 - 14 then 10
    else (16 - TxPwr) / 2
  else if band = RAK_BAND_US915 then
    if TxPwr ≥ 30 then 0
    else if TxPwr < 10 then 10
    else (30 - TxPwr) / 2
  else 0

/-- RAK3172_LoRaWAN_SetTxPwr: queries the band, computes the region index,
and sends AT+TXP with it (unsupported bands only log and keep index 0). -/
def RAK3172_LoRaWAN_SetTxPwr (eng : Engine) (TxPwr : Nat) :
    Outcome × List String :=
  match RAK3172_LoRaWAN_GetBand eng with
  | (Outcome.ret RAK3172_Error.ok, tr, some band) =>
    let c := "AT+TXP=" ++ toString (txPwrIndex band TxPwr)
    (Outcome.ret (eng.reply c).status, tr ++ [c])
  | (Outcome.ret RAK3172_Error.ok, tr, none) => (Outcome.crash, tr)
  | (Outcome.ret e, tr, _) => (Outcome.ret e, tr)
  | (Outcome.crash, tr, _) => (Outcome.crash, tr)

/-- RAK3172_LoRaWAN_SetRX1Delay. -/
def RAK3172_LoRaWAN_SetRX1Delay (eng : Engine) (Delay : Nat) :
    RAK3172_Error × List String :=
  let c := "AT+RX1DL=" ++ toString Delay
  ((eng.reply c).status, [c])

/-- RAK3172_LoRaWAN_SetRX2Delay. -/
def RAK3172_LoRaWAN_SetRX2Delay (eng : Engine) (Delay : Nat) :
    RAK3172_Error × List String :=
  let c := "AT+RX2DL=" ++ toString Delay
  ((eng.reply c).status, [c])

/-- RAK3172_LoRaWAN_GetSNR: AT+SNR=? query, (uint8_t)std::stoi parse. -/
def RAK3172_LoRaWAN_GetSNR (eng : Engine) :
    Outcome × List String × Option Nat :=
  let q := "AT+SNR=?"
  let r := eng.reply q
  let res : Outcome × Option Nat :=
    if r.status = RAK3172_Error.ok then
      match cppStoi r.value with
      | some n => (Outcome.ret RAK3172_Error.ok, some (uint8OfInt n))
      | none => (Outcome.crash, none)
    else (Outcome.ret r.status, none)
  (res.1, [q], res.2)

/-- RAK3172_LoRaWAN_GetRSSI: AT+RSSI=? query, (int8_t)std::stoi parse. -/
def RAK3172_LoRaWAN_GetRSSI (eng : Engine) :
    Outcome × List String × Option Int :=
  let q := "AT+RSSI=?"
  let r := eng.reply q
  let res : Outcome × Option Int :=
    if r.status = RAK3172_Error.ok then
      match cppStoi r.value with
      | some n => (Outcome.ret RAK3172_Error.ok, some (int8OfInt n))
      | none => (Outcome.crash, none)
    else (Outcome.ret r.status, none)
  (res.1, [q], res.2)

/-- RAK3172_LoRaWAN_GetDuty: queries the band, rejects bands outside
EU868/RU864/EU433, then queries AT+DUTYTIME=?. -/
def RAK3172_LoRaWAN_GetDuty (eng : Engine) :
    Outcome × List String × Option Nat :=
  match RAK3172_LoRaWAN_GetBand eng with
  | (Outcome.ret RAK3172_Error.ok, tr, some band) =>
    if band ≠ RAK_BAND_EU868 ∧ band ≠ RAK_BAND_RU864 ∧ band ≠ RAK_BAND_EU433 then
      (Outcome.ret RAK3172_Error.invalidArg, tr, none)
    else
      let q := "AT+DUTYTIME=?"
      let r := eng.reply q
      let res : Outcome × Option Nat :=
        if r.status = RAK3172_Error.ok then
          match cppStoi r.value with
          | some n => (Outcome.ret RAK3172_Error.ok, some (uint8OfInt n))
          | none => (Outcome.crash, none)
        else (Outcome.ret r.status, none)
      (res.1, tr ++ [q], res.2)
  | (Outcome.ret RAK3172_Error.ok, tr, none) => (Outcome.crash, tr, none)
  | (Outcome.ret e, tr, _) => (Outcome.ret e, tr, none)
  | (Outcome.crash, tr, _) => (Outcome.crash, tr, none)

/-- RAK3172_LoRaWAN_SetDataRate: rejects rates above RAK_DR_7. -/
def RAK3172_LoRaWAN_SetDataRate (eng : Engine) (DR : Nat) :
    RAK3172_Error × List String :=
  if DR > 7 then (RAK3172_Error.invalidArg, [])
  else
    let c := "AT+DR=" ++ toString DR
    ((eng.reply c).status, [c])

/-- RAK3172_LoRaWAN_GetDataRate: AT+DR=? query, std::stoi parse. -/
def RAK3172_LoRaWAN_GetDataRate (eng : Engine) :
    Outcome × List String × Option Int :=
  let q := "AT+DR=?"
  let r := eng.reply q
  let res : Outcome × Option Int :=
    if r.status = RAK3172_Error.ok then
      match cppStoi r.value with
      | some n => (Outcome.ret RAK3172_Error.ok, some n)
      | none => (Outcome.crash, none)
    else (Outcome.ret r.status, none)
  (res.1, [q], res.2)

/-- RAK3172_LoRaWAN_SetADR. -/
def RAK3172_LoRaWAN_SetADR (eng : Engine) (Enable : Bool) :
    RAK3172_Error × List String :=
  let c := "AT+ADR=" ++ boolToString Enable
  ((eng.reply c).status, [c])

/-- RAK3172_LoRaWAN_GetADR: AT+ADR=? query, (bool)std::stoi parse. -/
def RAK3172_LoRaWAN_GetADR (eng : Engine) :
    Outcome × List String × Option Bool :=
  let q := "AT+ADR=?"
  let r := eng.reply q
  let res : Outcome × Option Bool :=
    if r.status = RAK3172_Error.ok then
      match cppStoi r.value with
      | some n => (Outcome.ret RAK3172_Error.ok, some (decide (n ≠ 0)))
      | none => (Outcome.crash, none)
    else (Outcome.ret r.status, none)
  (res.1, [q], res.2)

/-- RAK3172_LoRaWAN_SetJoinMode: AT+NJM with the join-mode enum value. -/
def RAK3172_LoRaWAN_SetJoinMode (eng : Engine) (Mode : Nat) :
    RAK3172_Error × List String :=
  let c := "AT+NJM=" ++ toString Mode
  ((eng.reply c).status, [c])

/-- RAK3172_LoRaWAN_GetJoinMode: AT+NJM=? query, std::stoi parse. -/
def RAK3172_LoRaWAN_GetJoinMode (eng : Engine) :
    Outcome × List String × Option Int :=
  let q := "AT+NJM=?"
  let r := eng.reply q
  let res : Outcome × Option Int :=
    if r.status = RAK3172_Error.ok then
      match cppStoi r.value with
      | some n => (Outcome.ret RAK3172_Error.ok, some n)
      | none => (Outcome.crash, none)
    else (Outcome.ret r.status, none)
  (res.1, [q], res.2)

/- ===== LoRaWAN session operations (rak3172_lorawan.cpp) ===== -/

/-- RAK3172_LoRaWAN_StopJoin: unconditionally sends the cancel-join command. -/
def RAK3172_LoRaWAN_StopJoin (eng : Engine) : RAK3172_Error × List String :=
  let c := "AT+JOIN=0:0:7:0"
  ((eng.reply c).status, [c])

/-- RAK3172_LoRaWAN_isJoined: AT+NJS=? query; the cached flag becomes true
exactly when the reply compares equal to "1". Returns the new flag. -/
def RAK3172_LoRaWAN_isJoined (eng : Engine) : Outcome × List String × Option Bool :=
  let q := "AT+NJS=?"
  let r := eng.reply q
  if r.status = RAK3172_Error.ok then
    (Outcome.ret RAK3172_Error.ok, [q], some (decide (r.value = "1")))
  else (Outcome.ret r.status, [q], none)

/-- The join command line "AT+JOIN=1:auto:interval:attempts" that StartJoin
builds with std::to_string. -/
def joinCmdString (EnableAutoJoin : Bool) (Interval Attempts : Nat) : String :=
  "AT+JOIN=1:" ++ boolToString EnableAutoJoin ++ ":" ++
    toString Interval ++ ":" ++ toString Attempts

/-- The do/while join-wait loop of RAK3172_LoRaWAN_StartJoin. Per iteration:
the timeout test runs first (on timeout the cancel-join command is written
and RAK3172_ERR_TIMEOUT returned), then the bounded sleep, then the
while-condition reads the isJoined flag. The flag is owned by the
background receive task, so its value at the k-th read is an input stream
joinedAt, and elapsedAt k is the millisecond clock at the k-th timeout
test. fuel bounds the modelled iterations (none = still looping). -/
def startJoinWaitLoop (Timeout : Nat) (elapsedAt : Nat → Nat) (joinedAt : Nat → Bool) :
    Nat → Nat → Option (RAK3172_Error × List Act)
  | 0, _ => none
  | fuel + 1, k =>
    if Timeout > 0 ∧ Timeout * 1000 ≤ elapsedAt k then
      some (RAK3172_Error.timeout, [Act.cmd "AT+JOIN=0:0:7:0"])
    else if joinedAt k then
      some (RAK3172_Error.ok, [Act.sleep])
    else
      match startJoinWaitLoop Timeout elapsedAt joinedAt fuel (k + 1) with
      | some (e, tr) => some (e, Act.sleep :: tr)
      | none => none

/-- RAK3172_LoRaWAN_StartJoin: rejects Attempts = 0, succeeds immediately
when the device is already joined, otherwise sends the join command built
from the auto-join/interval/attempts parameters and enters the join-wait
loop. The source accepts an on_Wait hook pointer but its body never calls
it, which the _onWaitPresent parameter mirrors. -/
def RAK3172_LoRaWAN_StartJoin (eng : Engine) (dev : RAK3172) (Timeout : Nat)
    (Attempts : Nat) (EnableAutoJoin : Bool) (Interval : Nat)
    (_onWaitPresent : Bool) (fuel : Nat) (elapsedAt : Nat → Nat)
    (joinedAt : Nat → Bool) : Option (RAK3172_Error × List Act) :=
  if Attempts = 0 then some (RAK3172_Error.invalidArg, [])
  else if dev.isJoined then some (RAK3172_Error.ok, [])
  else
    let joinCmd := joinCmdString EnableAutoJoin Interval Attempts
    let r := eng.reply joinCmd
    if r.status ≠ RAK3172_Error.ok then some (r.status, [Act.cmd joinCmd])
    else
      match startJoinWaitLoop Timeout elapsedAt joinedAt fuel 0 with
      | some (e, tr) => some (e, Act.cmd joinCmd :: tr)
      | none => none

/-- The confirmed-ack wait loop of RAK3172_LoRaWAN_Transmit. Per iteration:
the optional wait hook runs first, then one receive attempt on the event
queue (some line, or none after the bounded queue timeout); a line holding
"SEND CONFIRMED FAILED" returns invalid-response, one holding
"SEND CONFIRMED OK" returns success, any other consumed line is released;
then the timeout test, then the bounded sleep. The scripted queue activity
doubles as fuel (none = still looping). -/
def transmitWaitLoop (Timeout : Nat) (hasWait : Bool) (elapsedAt : Nat → Nat) :
    List (Option String) → Nat → Option (RAK3172_Error × List Act)
  | [], _ => none
  | ev :: rest, k =>
    let hookTr : List Act := if hasWait then [Act.hook] else []
    let next : Option (RAK3172_Error × List Act) :=
      if Timeout > 0 ∧ Timeout * 1000 ≤ elapsedAt k then
        some (RAK3172_Error.timeout, [])
      else
        match transmitWaitLoop Timeout hasWait elapsedAt rest (k + 1) with
        | some (e, tr) => some (e, Act.sleep :: tr)
        | none => none
    match ev with
    | some line =>
      if (cppFind line "SEND CONFIRMED FAILED" 0).isSome then
        some (RAK3172_Error.invalidResponse, hookTr)
      else if (cppFind line "SEND CONFIRMED OK" 0).isSome then
        some (RAK3172_Error.ok, hookTr)
      else
        match next with
        | some (e, tr) => some (e, hookTr ++ tr)
        | none => none
    | none =>
      match next with
      | some (e, tr) => some (e, hookTr ++ tr)
      | none => none

/-- RAK3172_LoRaWAN_Transmit: rejects a NULL buffer combined with length 0
or port 0; an unjoined device yields not-connected; length 0 then returns
success with nothing written. Otherwise the payload bytes are %02x-encoded,
the confirmation mode is set (RAK3172_LoRaWAN_SetConfirmation), AT+SEND is
written, a status text holding AT_BUSY_ERROR yields invalid-response, and a
confirmed send enters the ack wait loop. A NULL buffer with positive
length, or a length beyond the supplied bytes, dereferences invalid memory
in the encode loop (crash). -/
def RAK3172_LoRaWAN_Transmit (eng : Engine) (dev : RAK3172) (Port : Nat)
    (Buffer : Option (List Nat)) (Length : Nat) (Timeout : Nat)
    (Confirmed : Bool) (hasWait : Bool) (events : List (Option String))
    (elapsedAt : Nat → Nat) : Option (Outcome × List Act) :=
  if (Buffer = none ∧ Length = 0) ∨ Port = 0 then
    some (Outcome.ret RAK3172_Error.invalidArg, [])
  else if dev.isJoined = false then
    some (Outcome.ret RAK3172_Error.notConnected, [])
  else if Length = 0 then
    some (Outcome.ret RAK3172_Error.ok, [])
  else
    match Buffer with
    | none => some (Outcome.crash, [])
    | some buf =>
      if buf.length < Length then some (Outcome.crash, [])
      else
        let payload := String.mk (hexEncodeLower (buf.take Length))
        let c1 := RAK3172_LoRaWAN_SetConfirmation eng Confirmed
        if c1.1 ≠ RAK3172_Error.ok then
          some (Outcome.ret c1.1, c1.2.map Act.cmd)
        else
          let sendCmd := "AT+SEND=" ++ toString Port ++ ":" ++ payload
          let r2 := eng.reply sendCmd
          if r2.status ≠ RAK3172_Error.ok then
            some (Outcome.ret r2.status, c1.2.map Act.cmd ++ [Act.cmd sendCmd])
          else if (cppFind r2.statusText "AT_BUSY_ERROR" 0).isSome then
            some (Outcome.ret RAK3172_Error.invalidResponse,
              c1.2.map Act.cmd ++ [Act.cmd sendCmd])
          else if Confirmed then
            match transmitWaitLoop Timeout hasWait elapsedAt events 0 with
            | some (e, tr) =>
              some (Outcome.ret e, c1.2.map Act.cmd ++ Act.cmd sendCmd :: tr)
            | none => none
          else
            some (Outcome.ret RAK3172_Error.ok, c1.2.map Act.cmd ++ [Act.cmd sendCmd])

/-- The RSSI extraction of RAK3172_LoRaWAN_Receive on an RX metadata line:
Index = find(","), then stoi(substr(Index + 7, Index + find(",", Index) + 1)).
none models the uncaught exception when the extracted text is not a number.
(A line with no comma at all would wrap through size_t arithmetic in the
source instead; no claim exercises that path, and it is folded into none.) -/
def receiveParseRSSI (line : String) : Option Int :=
  match cppFind line "," 0 with
  | none => none
  | some idx =>
    match cppFind line "," idx with
    | none => none
    | some idx2 =>
      match cppSubstr line (idx + 7) (idx + idx2 + 1) with
      | none => none
      | some dummy => cppStoi dummy

/-- The SNR extraction of RAK3172_LoRaWAN_Receive on an RX metadata line:
Index = find_last_of(","), then stoi(substr(Index + 6, length - 1)). -/
def receiveParseSNR (line : String) : Option Int :=
  match cppFindLastOf line ',' with
  | none => none
  | some idx =>
    match cppSubstr line (idx + 6) (line.length - 1) with
    | none => none
    | some dummy => cppStoi dummy

/-- Metadata handling of one consumed line: on a line containing "RX" the
RSSI and then the SNR are extracted into the requested outputs; none models
the crash from a failed std::stoi. Other lines leave the outputs alone. -/
def receiveMeta (wantRSSI wantSNR : Bool) (line : String)
    (rssi snr : Option Int) : Option (Option Int × Option Int) :=
  if (cppFind line "RX" 0).isSome then
    match (if wantRSSI then (receiveParseRSSI line).map some else some rssi) with
    | none => none
    | some r2 =>
      match (if wantSNR then (receiveParseSNR line).map some else some snr) with
      | none => none
      | some s2 => some (r2, s2)
  else some (rssi, snr)

/-- The receive loop of RAK3172_LoRaWAN_Receive: per iteration one receive
attempt on the event queue; a consumed line is first checked for RX
metadata, then a line containing "UNICAST" yields the substring after the
last ":" as the payload and returns success immediately; otherwise the
line is released, the timeout test compares elapsed-milliseconds / 1000
against Timeout, and the loop sleeps and repeats. Result components:
outcome, RSSI output, SNR output, payload output. -/
def receiveLoop (wantRSSI wantSNR : Bool) (Timeout : Nat) (elapsedAt : Nat → Nat) :
    List (Option String) → Nat → Option Int → Option Int →
    Option (Outcome × Option Int × Option Int × Option String)
  | [], _, _, _ => none
  | ev :: rest, k, rssi, snr =>
    match ev with
    | some line =>
      match receiveMeta wantRSSI wantSNR line rssi snr with
      | none => some (Outcome.crash, rssi, snr, none)
      | some (r2, s2) =>
        if (cppFind line "UNICAST" 0).isSome then
          let pos := (match cppFindLastOf line ':' with | some i => i + 1 | none => 0)
          match cppSubstr line pos line.length with
          | some payload => some (Outcome.ret RAK3172_Error.ok, r2, s2, some payload)
          | none => some (Outcome.crash, r2, s2, none)
        else if Timeout > 0 ∧ Timeout ≤ elapsedAt k / 1000 then
          some (Outcome.ret RAK3172_Error.timeout, r2, s2, none)
        else receiveLoop wantRSSI wantSNR Timeout elapsedAt rest (k + 1) r2 s2
    | none =>
      if Timeout > 0 ∧ Timeout ≤ elapsedAt k / 1000 then
        some (Outcome.ret RAK3172_Error.timeout, rssi, snr, none)
      else receiveLoop wantRSSI wantSNR Timeout elapsedAt rest (k + 1) rssi snr

/-- RAK3172_LoRaWAN_Receive: rejects Timeout <= 1, an unjoined device
yields not-connected, otherwise the receive loop runs. wantRSSI/wantSNR
mirror whether the caller passed non-NULL p_RSSI/p_SNR outputs. -/
def RAK3172_LoRaWAN_Receive (dev : RAK3172) (wantRSSI wantSNR : Bool)
    (Timeout : Nat) (events : List (Option String)) (elapsedAt : Nat → Nat) :
    Option (Outcome × Option Int × Option Int × Option String) :=
  if Timeout ≤ 1 then some (Outcome.ret RAK3172_Error.invalidArg, none, none, none)
  else if dev.isJoined = false then
    some (Outcome.ret RAK3172_Error.notConnected, none, none, none)
  else receiveLoop wantRSSI wantSNR Timeout elapsedAt events 0 none none

/-- RAK3172_LoRaWAN_SetOTAAKeys: rejects NULL keys, requires OTAA join
mode, renders DevEUI and AppEUI from 8 bytes and AppKey from 16 bytes with
%02X, and sends AT+DEVEUI, AT+APPEUI, AT+APPKEY in that order. Shorter
buffers would be read out of bounds (crash). -/
def RAK3172_LoRaWAN_SetOTAAKeys (eng : Engine) (dev : RAK3172)
    (DevEUI AppEUI AppKey : Option (List Nat)) : Outcome × List String :=
  match DevEUI, AppEUI, AppKey with
  | some d, some a, some k =>
    if dev.joinMode ≠ RAK_JOIN_OTAA then (Outcome.ret RAK3172_Error.invalidState, [])
    else if d.length < 8 ∨ a.length < 8 ∨ k.length < 16 then (Outcome.crash, [])
    else
      let devCmd := "AT+DEVEUI=" ++ String.mk (hexEncodeUpper (d.take 8))
      let appCmd := "AT+APPEUI=" ++ String.mk (hexEncodeUpper (a.take 8))
      let keyCmd := "AT+APPKEY=" ++ String.mk (hexEncodeUpper (k.take 16))
      let r1 := eng.reply devCmd
      if r1.status ≠ RAK3172_Error.ok then (Outcome.ret r1.status, [devCmd])
      else
        let r2 := eng.reply appCmd
        if r2.status ≠ RAK3172_Error.ok then (Outcome.ret r2.status, [devCmd, appCmd])
        else (Outcome.ret (eng.reply keyCmd).status, [devCmd, appCmd, keyCmd])
  | _, _, _ => (Outcome.ret RAK3172_Error.invalidArg, [])

/- ===== P2P encryption (rak3172_p2p_rui3.cpp) ===== -/

/-- RAK3172_P2P_EnableEncryption: a NULL key is rejected before any I/O;
otherwise AT+ENCRY=1 is sent, the device's isEncryptionEnabled flag is set
to true, the first 8 key bytes are %02x-encoded and sent with AT+ENCKEY.
The third result component is the flag after the call. -/
def RAK3172_P2P_EnableEncryption (eng : Engine) (dev : RAK3172)
    (Key : Option (List Nat)) : Outcome × List String × Bool :=
  match Key with
  | none => (Outcome.ret RAK3172_Error.invalidArg, [], dev.isEncryptionEnabled)
  | some k =>
    let encryCmd := "AT+ENCRY=" ++ boolToString true
    let r1 := eng.reply encryCmd
    if r1.status ≠ RAK3172_Error.ok then
      (Outcome.ret r1.status, [encryCmd], dev.isEncryptionEnabled)
    else if k.length < 8 then (Outcome.crash, [encryCmd], true)
    else
      let keyCmd := "AT+ENCKEY=" ++ String.mk (hexEncodeLower (k.take 8))
      (Outcome.ret (eng.reply keyCmd).status, [encryCmd, keyCmd], true)

/- ===== Concrete engines and devices used by closed evaluations ===== -/

/-- An engine whose module acknowledges every command with OK and an empty
captured value. -/
def engOk : Engine := Engine.mk (fun _ => CmdResult.mk RAK3172_Error.ok "" "")

/-- An engine reporting band EU433 ("0") to the AT+BAND=? query and OK to
everything else. -/
def engBand0 : Engine :=
  Engine.mk (fun c =>
    if c = "AT+BAND=?" then CmdResult.mk RAK3172_Error.ok "0" ""
    else CmdResult.mk RAK3172_Error.ok "" "")

/-- An engine reporting band US915 ("5") to AT+BAND=? and echoing the mask
"0001" that SetSubBand(RAK_SUB_BAND_1) renders back to AT+MASK=?. -/
def engC2 : Engine :=
  Engine.mk (fun c =>
    if c = "AT+BAND=?" then CmdResult.mk RAK3172_Error.ok "5" ""
    else if c = "AT+MASK=?" then CmdResult.mk RAK3172_Error.ok "0001" ""
    else CmdResult.mk RAK3172_Error.ok "" "")

/-- An engine that accepts AT+ENCRY=1 but answers the key command with
ERROR (reported by the command engine as invalid-response). -/
def engEncKeyFail : Engine :=
  Engine.mk (fun c =>
    if c = "AT+ENCRY=1" then CmdResult.mk RAK3172_Error.ok "" ""
    else CmdResult.mk RAK3172_Error.invalidResponse "" "")

/-- A joined OTAA device handle. -/
def devJoined : RAK3172 := RAK3172.mk true RAK_JOIN_OTAA false

/-- A freshly initialized, unjoined OTAA device handle. -/
def devUnjoined : RAK3172 := RAK3172.mk false RAK_JOIN_OTAA false

/- ===== Helper lemmas ===== -/

/-- Each of the sixteen digit values renders to an uppercase character that
decodes back to itself. -/
theorem hexVal_hexDigitUpper : ∀ d < 16, hexVal (hexDigitUpper d) = some d := by
  decide

/-- Each of the sixteen digit values renders to a lowercase character that
decodes back to itself. -/
theorem hexVal_hexDigitLower : ∀ d < 16, hexVal (hexDigitLower d) = some d := by
  decide

/-- The %02X loop emits exactly two characters per byte. -/
theorem hexEncodeUpper_length (bs : List Nat) :
    (hexEncodeUpper bs).length = 2 * bs.length := by
  induction bs with
  | nil => rfl
  | cons b bs ih =>
    simp only [hexEncodeUpper, byteToHexUpper, List.length_append, List.length_cons, ih]
    simp; omega

/-- The %02x loop emits exactly two characters per byte. -/
theorem hexEncodeLower_length (bs : List Nat) :
    (hexEncodeLower bs).length = 2 * bs.length := by
  induction bs with
  | nil => rfl
  | cons b bs ih =>
    simp only [hexEncodeLower, byteToHexLower, List.length_append, List.length_cons, ih]
    simp; omega

/-- Uppercase hex encoding of bytes decodes back to the original bytes. -/
theorem hexDecode_hexEncodeUpper (bs : List Nat) (h : ∀ b ∈ bs, b < 256) :
    hexDecode (hexEncodeUpper bs) = some bs := by
  induction bs with
  | nil => rfl
  | cons b bs ih =>
    have hb : b < 256 := h b (List.mem_cons_self b bs)
    have h1 : hexVal (hexDigitUpper (b / 16)) = some (b / 16) :=
      hexVal_hexDigitUpper _ (by omega)
    have h2 : hexVal (hexDigitUpper (b % 16)) = some (b % 16) :=
      hexVal_hexDigitUpper _ (by omega)
    have ih2 := ih (fun x hx => h x (List.mem_cons_of_mem b hx))
    have hdm : b / 16 * 16 + b % 16 = b := by omega
    simp [hexEncodeUpper, byteToHexUpper, hexDecode, h1, h2, ih2, hdm]

/-- Lowercase hex encoding of bytes decodes back to the original bytes. -/
theorem hexDecode_hexEncodeLower (bs : List Nat) (h : ∀ b ∈ bs, b < 256) :
    hexDecode (hexEncodeLower bs) = some bs := by
  induction bs with
  | nil => rfl
  | cons b bs ih =>
    have hb : b < 256 := h b (List.mem_cons_self b bs)
    have h1 : hexVal (hexDigitLower (b / 16)) = some (b / 16) :=
      hexVal_hexDigitLower _ (by omega)
    have h2 : hexVal (hexDigitLower (b % 16)) = some (b % 16) :=
      hexVal_hexDigitLower _ (by omega)
    have ih2 := ih (fun x hx => h x (List.mem_cons_of_mem b hx))
    have hdm : b / 16 * 16 + b % 16 = b := by omega
    simp [hexEncodeLower, byteToHexLower, hexDecode, h1, h2, ih2, hdm]

/- ===== Claim theorems ===== -/

/-- C4: the driver's hex encoding produces exactly two characters per input
byte, concatenated in input order with no separators (string length 2L),
and decodes case-insensitively back to the original bytes; the uppercase
form is the one sent for OTAA key provisioning (first command AT+DEVEUI=)
and the lowercase form is the one sent in the AT+SEND transmit payload. -/
theorem C4_hex_encoding :
    (∀ bs : List Nat, (hexEncodeUpper bs).length = 2 * bs.length ∧
      (hexEncodeLower bs).length = 2 * bs.length)
    ∧ (∀ bs : List Nat, (∀ b ∈ bs, b < 256) →
      hexDecode (hexEncodeUpper bs) = some bs ∧
      hexDecode (hexEncodeLower bs) = some bs)
    ∧ (∀ (eng : Engine) (dev : RAK3172) (d a k : List Nat),
      dev.joinMode = RAK_JOIN_OTAA → 8 ≤ d.length → 8 ≤ a.length → 16 ≤ k.length →
      (RAK3172_LoRaWAN_SetOTAAKeys eng dev (some d) (some a) (some k)).2.head? =
        some ("AT+DEVEUI=" ++ String.mk (hexEncodeUpper (d.take 8))))
    ∧ (∀ (eng : Engine) (dev : RAK3172) (Port : Nat) (buf : List Nat)
        (Length Timeout : Nat) (w : Bool) (ev : List (Option String)) (el : Nat → Nat),
      dev.isJoined = true → Port ≠ 0 → 0 < Length → Length ≤ buf.length →
      (eng.reply "AT+CFM=0").status = RAK3172_Error.ok →
      (eng.reply ("AT+SEND=" ++ toString Port ++ ":" ++
        String.mk (hexEncodeLower (buf.take Length)))).status = RAK3172_Error.ok →
      cppFind (eng.reply ("AT+SEND=" ++ toString Port ++ ":" ++
        String.mk (hexEncodeLower (buf.take Length)))).statusText "AT_BUSY_ERROR" 0 = none →
      RAK3172_LoRaWAN_Transmit eng dev Port (some buf) Length Timeout false w ev el =
        some (Outcome.ret RAK3172_Error.ok,
          [Act.cmd "AT+CFM=0",
           Act.cmd ("AT+SEND=" ++ toString Port ++ ":" ++
             String.mk (hexEncodeLower (buf.take Length)))])) := by
  refine ⟨?_, ?_, ?_, ?_⟩
  · intro bs
    exact ⟨hexEncodeUpper_length bs, hexEncodeLower_length bs⟩
  · intro bs h
    exact ⟨hexDecode_hexEncodeUpper bs h, hexDecode_hexEncodeLower bs h⟩
  · intro eng dev d a k hm hd ha hk
    unfold RAK3172_LoRaWAN_SetOTAAKeys
    simp only [hm]
    have hg : ¬(d.length < 8 ∨ a.length < 8 ∨ k.length < 16) := by omega
    simp only [ne_eq, not_true_eq_false, if_false, hg, if_true]
    split
    · simp
    · split <;> simp
  · intro eng dev Port buf Length Timeout w ev el hj hp hl hlen hcfm hsend hbusy
    unfold RAK3172_LoRaWAN_Transmit
    have h1 : ¬((some buf = none ∧ Length = 0) ∨ Port = 0) := by
      simp [hp]
    have h2 : ¬(Length = 0) := by omega
    have h3 : ¬(buf.length < Length) := by omega
    simp only [h1, if_false, hj, h2, h3,
      RAK3172_LoRaWAN_SetConfirmation, boolToString]
    simp [hcfm, hsend, hbusy, hp]

/-- C4 witness: the properties evaluated at the bytes [0, 171, 255] and a
concrete unconfirmed transmit of [1, 2] on port 5. -/
theorem C4_hex_encoding_witness :
    (hexEncodeUpper [0, 171, 255]).length = 2 * 3 ∧
    hexDecode (hexEncodeUpper [0, 171, 255]) = some [0, 171, 255] ∧
    RAK3172_LoRaWAN_Transmit engOk devJoined 5 (some [1, 2]) 2 0 false false []
        (fun _ => 0) =
      some (Outcome.ret RAK3172_Error.ok,
        [Act.cmd "AT+CFM=0",
         Act.cmd ("AT+SEND=" ++ toString 5 ++ ":" ++
           String.mk (hexEncodeLower ([1, 2].take 2)))]) := by
  refine ⟨(C4_hex_encoding.1 [0, 171, 255]).1, ?_, ?_⟩
  · exact (C4_hex_encoding.2.1 [0, 171, 255] (by decide)).1
  · exact C4_hex_encoding.2.2.2 engOk devJoined 5 [1, 2] 2 0 false [] (fun _ => 0)
      rfl (by decide) (by decide) (by decide) rfl rfl (by decide)

/-- C2: evaluation at the failing input. With the configured band reported
as US915, SetSubBand(RAK_SUB_BAND_1) renders and sends the mask "0001";
when the module echoes that mask back (value 1), GetSubBand returns
RAK_SUB_BAND_2 rather than RAK_SUB_BAND_1, because the shift counter
starts at 1 and the code adds 2 on top, so get(set(x)) = x + 1. -/
theorem C2_subband_roundtrip_bug :
    RAK3172_LoRaWAN_SetSubBand engC2 RAK_SUB_BAND_1 =
      (Outcome.ret RAK3172_Error.ok, ["AT+BAND=?", "AT+MASK=0001"]) ∧
    RAK3172_LoRaWAN_GetSubBand engC2 =
      (Outcome.ret RAK3172_Error.ok, ["AT+BAND=?", "AT+MASK=?"], some RAK_SUB_BAND_2) ∧
    RAK_SUB_BAND_2 ≠ RAK_SUB_BAND_1 := by
  exact ⟨by decide, by decide, by decide⟩

/-- C1 counterexample: on a joined device, Transmit with port 5, a NULL
payload pointer and length 0 hits the guard `(p_Buffer == NULL) && (Length
== 0)` and returns RAK3172_ERR_INVALID_ARG (with no transport write), not
success as claimed. -/
theorem C1_null_zero_counterexample :
    RAK3172_LoRaWAN_Transmit engOk devJoined 5 none 0 0 false false []
        (fun _ => 0) =
      some (Outcome.ret RAK3172_Error.invalidArg, []) ∧
    Outcome.ret RAK3172_Error.invalidArg ≠ Outcome.ret RAK3172_Error.ok := by
  exact ⟨by decide, by decide⟩

/-- C1 (amended): on a joined device, a zero-length Transmit with a
non-NULL payload pointer returns success with no transport write, while a
NULL payload pointer with length 0 returns InvalidArgument, likewise with
no transport write. -/
theorem C1_zero_length_transmit (eng : Engine) (dev : RAK3172) (buf : List Nat)
    (Timeout : Nat) (cf w : Bool) (ev : List (Option String)) (el : Nat → Nat)
    (hj : dev.isJoined = true) :
    RAK3172_LoRaWAN_Transmit eng dev 5 (some buf) 0 Timeout cf w ev el =
      some (Outcome.ret RAK3172_Error.ok, []) ∧
    RAK3172_LoRaWAN_Transmit eng dev 5 none 0 Timeout cf w ev el =
      some (Outcome.ret RAK3172_Error.invalidArg, []) := by
  constructor
  · unfold RAK3172_LoRaWAN_Transmit
    simp [hj]
  · unfold RAK3172_LoRaWAN_Transmit
    simp

/-- C1 witness: the amended statement at a joined device and the one-byte
buffer [7]. -/
theorem C1_zero_length_transmit_witness :
    RAK3172_LoRaWAN_Transmit engOk devJoined 5 (some [7]) 0 0 false false []
        (fun _ => 0) =
      some (Outcome.ret RAK3172_Error.ok, []) :=
  (C1_zero_length_transmit engOk devJoined [7] 0 false false [] (fun _ => 0) rfl).1

/-- C8: on an unjoined device, Transmit with port 1, a non-NULL one-byte
payload and confirmed = false returns NotConnected and writes nothing to
the transport. -/
theorem C8_transmit_not_joined (eng : Engine) (dev : RAK3172) (b : Nat)
    (Timeout : Nat) (w : Bool) (ev : List (Option String)) (el : Nat → Nat)
    (hj : dev.isJoined = false) :
    RAK3172_LoRaWAN_Transmit eng dev 1 (some [b]) 1 Timeout false w ev el =
      some (Outcome.ret RAK3172_Error.notConnected, []) := by
  unfold RAK3172_LoRaWAN_Transmit
  simp [hj]

/-- C8 witness: the statement at a freshly initialized, unjoined device and
the payload byte 0x01. -/
theorem C8_transmit_not_joined_witness :
    RAK3172_LoRaWAN_Transmit engOk devUnjoined 1 (some [1]) 1 0 false false []
        (fun _ => 0) =
      some (Outcome.ret RAK3172_Error.notConnected, []) :=
  C8_transmit_not_joined engOk devUnjoined 1 0 false [] (fun _ => 0) rfl

/-- C3: the transmit-power index is computed exactly as claimed for EU868
and US915, is non-increasing in the requested dBm value for every band,
SetTxPwr issues AT+TXP with precisely that index after the band query, and
every band other than EU868/US915 keeps index 0 (the call is not failed for
them; the command still goes out with index 0). -/
theorem C3_txpwr_index :
    (∀ p : Nat, txPwrIndex RAK_BAND_EU868 p =
      if 16 ≤ p then 0 else if p < 2 then 10 else (16 - p) / 2)
    ∧ (∀ p : Nat, txPwrIndex RAK_BAND_US915 p =
      if 30 ≤ p then 0 else if p < 10 then 10 else (30 - p) / 2)
    ∧ (∀ (band : Int) (p q : Nat), p ≤ q → txPwrIndex band q ≤ txPwrIndex band p)
    ∧ (∀ (band : Int), band ≠ RAK_BAND_EU868 → band ≠ RAK_BAND_US915 →
      ∀ p, txPwrIndex band p = 0)
    ∧ (∀ (eng : Engine) (TxPwr : Nat) (band : Int),
      (eng.reply "AT+BAND=?").status = RAK3172_Error.ok →
      cppStoi (eng.reply "AT+BAND=?").value = some band →
      RAK3172_LoRaWAN_SetTxPwr eng TxPwr =
        (Outcome.ret (eng.reply ("AT+TXP=" ++ toString (txPwrIndex band TxPwr))).status,
          ["AT+BAND=?", "AT+TXP=" ++ toString (txPwrIndex band TxPwr)])) := by
  refine ⟨?_, ?_, ?_, ?_, ?_⟩
  · intro p
    simp [txPwrIndex, RAK_BAND_EU868, RAK_BAND_US915]
  · intro p
    simp [txPwrIndex, RAK_BAND_EU868, RAK_BAND_US915]
  · intro band p q hpq
    by_cases h1 : band = RAK_BAND_EU868
    · simp only [txPwrIndex, h1, if_true]
      split_ifs <;> omega
    · by_cases h2 : band = RAK_BAND_US915
      · simp only [txPwrIndex, h1, if_false, h2, if_true]
        split_ifs <;> omega
      · simp [txPwrIndex, h1, h2]
  · intro band h1 h2 p
    simp [txPwrIndex, h1, h2]
  · intro eng TxPwr band hst hval
    unfold RAK3172_LoRaWAN_SetTxPwr RAK3172_LoRaWAN_GetBand
    simp [hst, hval]

/-- C3 witness: the index formula at 7 dBm, monotonicity between 7 and
10 dBm on EU868, and a concrete SetTxPwr on a module configured for the
unsupported band EU433, which issues AT+TXP=0 and succeeds. -/
theorem C3_txpwr_index_witness :
    txPwrIndex RAK_BAND_EU868 7 =
      (if 16 ≤ 7 then 0 else if 7 < 2 then 10 else (16 - 7) / 2) ∧
    txPwrIndex RAK_BAND_EU868 10 ≤ txPwrIndex RAK_BAND_EU868 7 ∧
    txPwrIndex RAK_BAND_EU433 3 = 0 ∧
    RAK3172_LoRaWAN_SetTxPwr engBand0 12 =
      (Outcome.ret (engBand0.reply ("AT+TXP=" ++ toString (txPwrIndex 0 12))).status,
        ["AT+BAND=?", "AT+TXP=" ++ toString (txPwrIndex 0 12)]) := by
  refine ⟨C3_txpwr_index.1 7, ?_, ?_, ?_⟩
  · exact C3_txpwr_index.2.2.1 RAK_BAND_EU868 7 10 (by decide)
  · exact C3_txpwr_index.2.2.2.1 RAK_BAND_EU433 (by decide) (by decide) 3
  · exact C3_txpwr_index.2.2.2.2 engBand0 12 0 rfl (by decide)

/-- C6 counterexample: SetRetries is not a single Command Engine round
trip — with a module that acknowledges everything, SetRetries(3) writes two
command lines, AT+CFM=1 and then AT+RETY=3. -/
theorem C6_setretries_two_commands :
    (RAK3172_LoRaWAN_SetRetries engOk 3).2 = ["AT+CFM=1", "AT+RETY=3"] ∧
    (RAK3172_LoRaWAN_SetRetries engOk 3).2.length ≠ 1 := by
  exact ⟨by decide, by decide⟩

/-- C6 (amended): the plain accessors each perform exactly one Command
Engine round trip and the get forms send a KEY=? query, but SetRetries
performs two round trips (AT+CFM then AT+RETY), and the SubBand, TxPower
and Duty accessors first perform an AT+BAND=? round trip before their own
command, so they perform two as well. -/
theorem C6_accessor_roundtrips :
    (∀ (eng : Engine) (e : Bool),
      (RAK3172_LoRaWAN_SetPNM eng e).2 = ["AT+PNM=" ++ boolToString e])
    ∧ (∀ eng : Engine, (RAK3172_LoRaWAN_GetPNM eng).2.1 = ["AT+PNM=?"])
    ∧ (∀ (eng : Engine) (e : Bool),
      (RAK3172_LoRaWAN_SetConfirmation eng e).2 = ["AT+CFM=" ++ boolToString e])
    ∧ (∀ eng : Engine, (RAK3172_LoRaWAN_GetConfirmation eng).2.1 = ["AT+CFM=?"])
    ∧ (∀ (eng : Engine) (n : Nat),
      (RAK3172_LoRaWAN_SetBand eng n).2 = ["AT+BAND=" ++ toString n])
    ∧ (∀ eng : Engine, (RAK3172_LoRaWAN_GetBand eng).2.1 = ["AT+BAND=?"])
    ∧ (∀ eng : Engine, (RAK3172_LoRaWAN_GetRetries eng).2.1 = ["AT+RETY=?"])
    ∧ (∀ (eng : Engine) (d : Nat),
      (RAK3172_LoRaWAN_SetRX1Delay eng d).2 = ["AT+RX1DL=" ++ toString d])
    ∧ (∀ (eng : Engine) (d : Nat),
      (RAK3172_LoRaWAN_SetRX2Delay eng d).2 = ["AT+RX2DL=" ++ toString d])
    ∧ (∀ eng : Engine, (RAK3172_LoRaWAN_GetSNR eng).2.1 = ["AT+SNR=?"])
    ∧ (∀ eng : Engine, (RAK3172_LoRaWAN_GetRSSI eng).2.1 = ["AT+RSSI=?"])
    ∧ (∀ (eng : Engine) (dr : Nat), dr ≤ 7 →
      (RAK3172_LoRaWAN_SetDataRate eng dr).2 = ["AT+DR=" ++ toString dr])
    ∧ (∀ eng : Engine, (RAK3172_LoRaWAN_GetDataRate eng).2.1 = ["AT+DR=?"])
    ∧ (∀ (eng : Engine) (e : Bool),
      (RAK3172_LoRaWAN_SetADR eng e).2 = ["AT+ADR=" ++ boolToString e])
    ∧ (∀ eng : Engine, (RAK3172_LoRaWAN_GetADR eng).2.1 = ["AT+ADR=?"])
    ∧ (∀ (eng : Engine) (m : Nat),
      (RAK3172_LoRaWAN_SetJoinMode eng m).2 = ["AT+NJM=" ++ toString m])
    ∧ (∀ eng : Engine, (RAK3172_LoRaWAN_GetJoinMode eng).2.1 = ["AT+NJM=?"])
    ∧ (∀ (eng : Engine) (r : Nat), r ≤ 7 →
      (eng.reply ("AT+CFM=" ++ boolToString (decide (r > 0)))).status = RAK3172_Error.ok →
      (RAK3172_LoRaWAN_SetRetries eng r).2 =
        ["AT+CFM=" ++ boolToString (decide (r > 0)), "AT+RETY=" ++ toString r])
    ∧ (∀ (eng : Engine) (band : Int) (TxPwr : Nat),
      (eng.reply "AT+BAND=?").status = RAK3172_Error.ok →
      cppStoi (eng.reply "AT+BAND=?").value = some band →
      (RAK3172_LoRaWAN_SetTxPwr eng TxPwr).2 =
        ["AT+BAND=?", "AT+TXP=" ++ toString (txPwrIndex band TxPwr)])
    ∧ (∀ eng : Engine,
      (eng.reply "AT+BAND=?").status = RAK3172_Error.ok →
      cppStoi (eng.reply "AT+BAND=?").value = some RAK_BAND_US915 →
      (RAK3172_LoRaWAN_GetSubBand eng).2.1 = ["AT+BAND=?", "AT+MASK=?"])
    ∧ (∀ eng : Engine,
      (eng.reply "AT+BAND=?").status = RAK3172_Error.ok →
      cppStoi (eng.reply "AT+BAND=?").value = some RAK_BAND_EU868 →
      (RAK3172_LoRaWAN_GetDuty eng).2.1 = ["AT+BAND=?", "AT+DUTYTIME=?"]) := by
  refine ⟨fun eng e => rfl, fun eng => rfl, fun eng e => rfl, fun eng => rfl,
    fun eng n => rfl, fun eng => rfl, fun eng => rfl, fun eng d => rfl,
    fun eng d => rfl, fun eng => rfl, fun eng => rfl, ?_, fun eng => rfl,
    fun eng e => rfl, fun eng => rfl, fun eng m => rfl, fun eng => rfl,
    ?_, ?_, ?_, ?_⟩
  · intro eng dr hdr
    unfold RAK3172_LoRaWAN_SetDataRate
    have h7 : ¬(dr > 7) := by omega
    simp [h7]
  · intro eng r hr hcfm
    unfold RAK3172_LoRaWAN_SetRetries
    have h7 : ¬(r > 7) := by omega
    simp [h7, hcfm]
  · intro eng band TxPwr hst hval
    unfold RAK3172_LoRaWAN_SetTxPwr RAK3172_LoRaWAN_GetBand
    simp [hst, hval]
  · intro eng hst hval
    unfold RAK3172_LoRaWAN_GetSubBand RAK3172_LoRaWAN_GetBand
    simp [hst, hval, RAK_SUB_BAND_NONE, RAK_BAND_US915, RAK_BAND_AU915, RAK_BAND_CN470]
  · intro eng hst hval
    unfold RAK3172_LoRaWAN_GetDuty RAK3172_LoRaWAN_GetBand
    simp [hst, hval, RAK_BAND_EU868, RAK_BAND_RU864, RAK_BAND_EU433]

/-- C6 witness: concrete accessor calls on a module that acknowledges
everything, showing the one-command traces and the two-command traces. -/
theorem C6_accessor_roundtrips_witness :
    (RAK3172_LoRaWAN_SetPNM engOk true).2 = ["AT+PNM=" ++ boolToString true] ∧
    (RAK3172_LoRaWAN_GetADR engOk).2.1 = ["AT+ADR=?"] ∧
    (RAK3172_LoRaWAN_SetDataRate engOk 5).2 = ["AT+DR=" ++ toString 5] ∧
    (RAK3172_LoRaWAN_SetRetries engOk 5).2 =
      ["AT+CFM=" ++ boolToString (decide (5 > 0)), "AT+RETY=" ++ toString 5] ∧
    (RAK3172_LoRaWAN_GetSubBand engC2).2.1 = ["AT+BAND=?", "AT+MASK=?"] := by
  obtain ⟨h1, _, _, _, _, _, _, _, _, _, _, h12, _, _, h15, _, _, h18, _, h20, _⟩ :=
    C6_accessor_roundtrips
  exact ⟨h1 engOk true, h15 engOk, h12 engOk 5 (by decide),
    h18 engOk 5 (by decide) rfl, h20 engC2 rfl (by decide)⟩

/-- C9: RAK3172_P2P_EnableEncryption rejects a NULL key with
InvalidArgument before any I/O; for a non-NULL key it first sends
AT+ENCRY=1 and then sends exactly the first 8 key bytes as 16 lowercase
hex characters in the AT+ENCKEY command. -/
theorem C9_p2p_enable_encryption (eng : Engine) (dev : RAK3172) (k : List Nat)
    (h8 : 8 ≤ k.length)
    (h1 : (eng.reply "AT+ENCRY=1").status = RAK3172_Error.ok) :
    RAK3172_P2P_EnableEncryption eng dev none =
      (Outcome.ret RAK3172_Error.invalidArg, [], dev.isEncryptionEnabled) ∧
    RAK3172_P2P_EnableEncryption eng dev (some k) =
      (Outcome.ret (eng.reply
          ("AT+ENCKEY=" ++ String.mk (hexEncodeLower (k.take 8)))).status,
        ["AT+ENCRY=1", "AT+ENCKEY=" ++ String.mk (hexEncodeLower (k.take 8))],
        true) ∧
    (hexEncodeLower (k.take 8)).length = 16 := by
  refine ⟨rfl, ?_, ?_⟩
  · unfold RAK3172_P2P_EnableEncryption
    have hk : ¬(k.length < 8) := by omega
    simp [boolToString, h1, hk]
  · rw [hexEncodeLower_length]
    simp [List.length_take]
    omega

/-- C9 witness: the statement at the 8-byte key 01..08 on a module that
acknowledges both commands. -/
theorem C9_p2p_enable_encryption_witness :
    RAK3172_P2P_EnableEncryption engOk devUnjoined (some [1, 2, 3, 4, 5, 6, 7, 8]) =
      (Outcome.ret (engOk.reply ("AT+ENCKEY=" ++
          String.mk (hexEncodeLower ([1, 2, 3, 4, 5, 6, 7, 8].take 8)))).status,
        ["AT+ENCRY=1", "AT+ENCKEY=" ++
          String.mk (hexEncodeLower ([1, 2, 3, 4, 5, 6, 7, 8].take 8))],
        true) :=
  (C9_p2p_enable_encryption engOk devUnjoined [1, 2, 3, 4, 5, 6, 7, 8]
    (by decide) rfl).2.1

/-- C10: the device's P2P encryption flag is set to true as soon as the
AT+ENCRY enable command succeeds; when the subsequent AT+ENCKEY command
fails, EnableEncryption returns that error while the flag stays true. -/
theorem C10_enable_encryption_flag (eng : Engine) (dev : RAK3172) (k : List Nat)
    (e : RAK3172_Error) (h8 : 8 ≤ k.length)
    (h1 : (eng.reply "AT+ENCRY=1").status = RAK3172_Error.ok)
    (h2 : (eng.reply ("AT+ENCKEY=" ++ String.mk (hexEncodeLower (k.take 8)))).status = e)
    (he : e ≠ RAK3172_Error.ok) :
    RAK3172_P2P_EnableEncryption eng dev (some k) =
      (Outcome.ret e,
        ["AT+ENCRY=1", "AT+ENCKEY=" ++ String.mk (hexEncodeLower (k.take 8))],
        true) ∧
    Outcome.ret e ≠ Outcome.ret RAK3172_Error.ok := by
  constructor
  · unfold RAK3172_P2P_EnableEncryption
    have hk : ¬(k.length < 8) := by omega
    simp [boolToString, h1, hk, h2]
  · simp [he]

/-- C10 witness: a module that accepts AT+ENCRY=1 but answers the key
command with an error still leaves the flag set. -/
theorem C10_enable_encryption_flag_witness :
    RAK3172_P2P_EnableEncryption engEncKeyFail devUnjoined
        (some [1, 2, 3, 4, 5, 6, 7, 8]) =
      (Outcome.ret RAK3172_Error.invalidResponse,
        ["AT+ENCRY=1", "AT+ENCKEY=" ++
          String.mk (hexEncodeLower ([1, 2, 3, 4, 5, 6, 7, 8].take 8))],
        true) :=
  (C10_enable_encryption_flag engEncKeyFail devUnjoined [1, 2, 3, 4, 5, 6, 7, 8]
    RAK3172_Error.invalidResponse (by decide) rfl (by decide) (by decide)).1

/-- C7 counterexample: on the claimed metadata line
"+EVT:RX:-42,10,RSSI -60,SNR 7" the RSSI extraction takes
substr(first-comma + 7, ...), which is "I -60,SNR 7"; std::stoi rejects it
(uncaught exception), so Receive crashes instead of storing RSSI = -60 and
returning the unicast payload. -/
theorem C7_receive_metadata_format :
    RAK3172_LoRaWAN_Receive devJoined true true 10
        [some "+EVT:RX:-42,10,RSSI -60,SNR 7", some "+EVT:UNICAST:48656C6C6F"]
        (fun _ => 0) =
      some (Outcome.crash, none, none, none) ∧
    cppSubstr "+EVT:RX:-42,10,RSSI -60,SNR 7" 18 23 = some "I -60,SNR 7" ∧
    receiveParseRSSI "+EVT:RX:-42,10,RSSI -60,SNR 7" = none ∧
    some (Outcome.crash, (none : Option Int), (none : Option Int),
        (none : Option String)) ≠
      some (Outcome.ret RAK3172_Error.ok, some (-60), some 7,
        some "48656C6C6F") := by
  exact ⟨by decide, by decide, by decide, by decide⟩

/-- C7 (amended): the delimiter offsets of Receive fit metadata lines with
a space after each comma. On a joined device with Timeout 10, consuming
"+EVT:RX_1, RSSI -60, SNR 7" followed by "+EVT:UNICAST:48656C6C6F" stores
RSSI = -60 and SNR = 7 into the requested outputs and returns success
immediately on the unicast line, whose payload is the substring after the
last ":" — "48656C6C6F", which hex-decodes to the bytes of "Hello". -/
theorem C7_receive_parsing :
    RAK3172_LoRaWAN_Receive devJoined true true 10
        [some "+EVT:RX_1, RSSI -60, SNR 7", some "+EVT:UNICAST:48656C6C6F"]
        (fun _ => 0) =
      some (Outcome.ret RAK3172_Error.ok, some (-60), some 7,
        some "48656C6C6F") ∧
    hexDecode "48656C6C6F".toList = some [72, 101, 108, 108, 111] ∧
    List.map Char.ofNat [72, 101, 108, 108, 111] = "Hello".toList := by
  exact ⟨by decide, by decide, by decide⟩

/-- Join-wait loop, timeout path: when the timeout test fails and the
joined flag stays false for the first k iterations and the timeout test
fires at iteration k, the loop writes the cancel-join command after k
sleeps and reports a timeout. -/
theorem startJoinWaitLoop_timeout (Timeout : Nat) (el : Nat → Nat) (j : Nat → Bool) :
    ∀ (k i fuel : Nat), 0 < Timeout →
    (∀ m, m < k → el (i + m) < Timeout * 1000 ∧ j (i + m) = false) →
    Timeout * 1000 ≤ el (i + k) → k < fuel →
    startJoinWaitLoop Timeout el j fuel i =
      some (RAK3172_Error.timeout,
        List.replicate k Act.sleep ++ [Act.cmd "AT+JOIN=0:0:7:0"]) := by
  intro k
  induction k with
  | zero =>
    intro i fuel hT hpre htmo hfuel
    obtain ⟨f, rfl⟩ : ∃ f, fuel = f + 1 := ⟨fuel - 1, by omega⟩
    simp only [startJoinWaitLoop]
    rw [if_pos ⟨hT, by simpa using htmo⟩]
    simp
  | succ k ih =>
    intro i fuel hT hpre htmo hfuel
    obtain ⟨f, rfl⟩ : ∃ f, fuel = f + 1 := ⟨fuel - 1, by omega⟩
    have h0 := hpre 0 (by omega)
    simp only [Nat.add_zero] at h0
    simp only [startJoinWaitLoop]
    rw [if_neg (by omega)]
    rw [if_neg (by simp [h0.2])]
    have hpre2 : ∀ m, m < k → el (i + 1 + m) < Timeout * 1000 ∧ j (i + 1 + m) = false := by
      intro m hm
      have := hpre (m + 1) (by omega)
      rwa [show i + (m + 1) = i + 1 + m by omega] at this
    have htmo2 : Timeout * 1000 ≤ el (i + 1 + k) := by
      rwa [show i + (k + 1) = i + 1 + k by omega] at htmo
    rw [ih (i + 1) f hT hpre2 htmo2 (by omega)]
    simp [List.replicate_succ]

/-- Join-wait loop, success path: when the timeout test never fires through
iteration k and the joined flag becomes true at the k-th read, the loop
returns success after k + 1 sleeps and writes nothing. -/
theorem startJoinWaitLoop_success (Timeout : Nat) (el : Nat → Nat) (j : Nat → Bool) :
    ∀ (k i fuel : Nat),
    (∀ m, m ≤ k → ¬(Timeout > 0 ∧ Timeout * 1000 ≤ el (i + m))) →
    (∀ m, m < k → j (i + m) = false) →
    j (i + k) = true → k < fuel →
    startJoinWaitLoop Timeout el j fuel i =
      some (RAK3172_Error.ok, List.replicate (k + 1) Act.sleep) := by
  intro k
  induction k with
  | zero =>
    intro i fuel htm hj hjk hfuel
    obtain ⟨f, rfl⟩ : ∃ f, fuel = f + 1 := ⟨fuel - 1, by omega⟩
    simp only [startJoinWaitLoop]
    rw [if_neg (by simpa using htm 0 (by omega))]
    rw [if_pos (by simpa using hjk)]
    simp
  | succ k ih =>
    intro i fuel htm hj hjk hfuel
    obtain ⟨f, rfl⟩ : ∃ f, fuel = f + 1 := ⟨fuel - 1, by omega⟩
    simp only [startJoinWaitLoop]
    rw [if_neg (by simpa using htm 0 (by omega))]
    rw [if_neg (by simp [show j i = false by simpa using hj 0 (by omega)])]
    have htm2 : ∀ m, m ≤ k → ¬(Timeout > 0 ∧ Timeout * 1000 ≤ el (i + 1 + m)) := by
      intro m hm
      have := htm (m + 1) (by omega)
      rwa [show i + (m + 1) = i + 1 + m by omega] at this
    have hj2 : ∀ m, m < k → j (i + 1 + m) = false := by
      intro m hm
      have := hj (m + 1) (by omega)
      rwa [show i + (m + 1) = i + 1 + m by omega] at this
    have hjk2 : j (i + 1 + k) = true := by
      rwa [show i + (k + 1) = i + 1 + k by omega] at hjk
    rw [ih (i + 1) f htm2 hj2 hjk2 (by omega)]
    simp [List.replicate_succ]

/-- Join-wait loop with Timeout 0: the loop never reports a timeout. -/
theorem startJoinWaitLoop_no_timeout (el : Nat → Nat) (j : Nat → Bool) :
    ∀ (fuel i : Nat) (tr : List Act),
    startJoinWaitLoop 0 el j fuel i ≠ some (RAK3172_Error.timeout, tr) := by
  intro fuel
  induction fuel with
  | zero =>
    intro i tr
    simp [startJoinWaitLoop]
  | succ f ih =>
    intro i tr
    simp only [startJoinWaitLoop]
    rw [if_neg (by simp)]
    by_cases hj : j i = true
    · rw [if_pos hj]
      simp
    · rw [if_neg hj]
      cases hrec : startJoinWaitLoop 0 el j f (i + 1) with
      | none => simp
      | some p =>
        obtain ⟨e, tr2⟩ := p
        simp only [Ne, Option.some.injEq, Prod.mk.injEq, not_and]
        intro he
        exact absurd (he ▸ hrec) (ih (i + 1) tr2)

/-- The join-wait loop never invokes the caller-supplied wait hook: its
trace contains only sleeps and the cancel-join command. -/
theorem startJoinWaitLoop_no_hook (Timeout : Nat) (el : Nat → Nat) (j : Nat → Bool) :
    ∀ (fuel i : Nat) (e : RAK3172_Error) (tr : List Act),
    startJoinWaitLoop Timeout el j fuel i = some (e, tr) → Act.hook ∉ tr := by
  intro fuel
  induction fuel with
  | zero =>
    intro i e tr h
    simp [startJoinWaitLoop] at h
  | succ f ih =>
    intro i e tr h
    simp only [startJoinWaitLoop] at h
    split at h
    · have h2 : RAK3172_Error.timeout = e ∧ [Act.cmd "AT+JOIN=0:0:7:0"] = tr := by
        simpa using h
      obtain ⟨rfl, rfl⟩ := h2
      simp
    · split at h
      · have h2 : RAK3172_Error.ok = e ∧ [Act.sleep] = tr := by simpa using h
        obtain ⟨rfl, rfl⟩ := h2
        simp
      · split at h
        · rename_i e2 tr2 heq
          have h2 : e2 = e ∧ Act.sleep :: tr2 = tr := by simpa using h
          obtain ⟨rfl, rfl⟩ := h2
          have hni := ih (i + 1) e2 tr2 heq
          simp [hni]
        · simp at h

/-- C5 counterexample: a StartJoin run on an unjoined device that performs
a polling iteration (a sleep is in the trace) with the wait hook supplied,
yet no hook invocation appears in the trace — StartJoin accepts the
on_Wait parameter but its polling loop never calls it. -/
theorem C5_hook_never_invoked :
    RAK3172_LoRaWAN_StartJoin engOk devUnjoined 0 3 false 10 true 5
        (fun _ => 0) (fun _ => true) =
      some (RAK3172_Error.ok, [Act.cmd "AT+JOIN=1:0:10:3", Act.sleep]) ∧
    Act.hook ∉ [Act.cmd "AT+JOIN=1:0:10:3", Act.sleep] ∧
    Act.sleep ∈ [Act.cmd "AT+JOIN=1:0:10:3", Act.sleep] := by
  exact ⟨by decide, by decide, by decide⟩

/-- C5 (amended): StartJoin succeeds immediately without writing anything
when the device is already joined; otherwise it writes the join command
with the auto-join/interval/attempts parameters and polls until the joined
flag becomes true or a non-zero timeout elapses; on timeout it writes the
cancel-join command before returning Timeout; a timeout of 0 never yields
a join-wait timeout; and the caller-supplied wait hook is never invoked. -/
theorem C5_start_join_behavior :
    (∀ (eng : Engine) (dev : RAK3172) (T att intv fuel : Nat) (auto w : Bool)
        (el : Nat → Nat) (j : Nat → Bool), dev.isJoined = true → att ≠ 0 →
      RAK3172_LoRaWAN_StartJoin eng dev T att auto intv w fuel el j =
        some (RAK3172_Error.ok, []))
    ∧ (∀ (eng : Engine) (dev : RAK3172) (T att intv fuel k : Nat) (auto w : Bool)
        (el : Nat → Nat) (j : Nat → Bool),
      dev.isJoined = false → att ≠ 0 →
      (eng.reply (joinCmdString auto intv att)).status = RAK3172_Error.ok →
      0 < T →
      (∀ m, m < k → el m < T * 1000 ∧ j m = false) →
      T * 1000 ≤ el k → k < fuel →
      RAK3172_LoRaWAN_StartJoin eng dev T att auto intv w fuel el j =
        some (RAK3172_Error.timeout,
          Act.cmd (joinCmdString auto intv att) ::
            (List.replicate k Act.sleep ++ [Act.cmd "AT+JOIN=0:0:7:0"])))
    ∧ (∀ (eng : Engine) (dev : RAK3172) (T att intv fuel k : Nat) (auto w : Bool)
        (el : Nat → Nat) (j : Nat → Bool),
      dev.isJoined = false → att ≠ 0 →
      (eng.reply (joinCmdString auto intv att)).status = RAK3172_Error.ok →
      (∀ m, m ≤ k → ¬(T > 0 ∧ T * 1000 ≤ el m)) →
      (∀ m, m < k → j m = false) → j k = true → k < fuel →
      RAK3172_LoRaWAN_StartJoin eng dev T att auto intv w fuel el j =
        some (RAK3172_Error.ok,
          Act.cmd (joinCmdString auto intv att) ::
            List.replicate (k + 1) Act.sleep))
    ∧ (∀ (eng : Engine) (dev : RAK3172) (att intv fuel : Nat) (auto w : Bool)
        (el : Nat → Nat) (j : Nat → Bool) (tr : List Act),
      (eng.reply (joinCmdString auto intv att)).status ≠ RAK3172_Error.timeout →
      RAK3172_LoRaWAN_StartJoin eng dev 0 att auto intv w fuel el j ≠
        some (RAK3172_Error.timeout, tr))
    ∧ (∀ (eng : Engine) (dev : RAK3172) (T att intv fuel : Nat) (auto w : Bool)
        (el : Nat → Nat) (j : Nat → Bool) (e : RAK3172_Error) (tr : List Act),
      RAK3172_LoRaWAN_StartJoin eng dev T att auto intv w fuel el j =
        some (e, tr) → Act.hook ∉ tr) := by
  refine ⟨?_, ?_, ?_, ?_, ?_⟩
  · intro eng dev T att intv fuel auto w el j hj hatt
    unfold RAK3172_LoRaWAN_StartJoin
    simp [hatt, hj]
  · intro eng dev T att intv fuel k auto w el j hj hatt hr hT hpre htmo hfuel
    unfold RAK3172_LoRaWAN_StartJoin
    have hl := startJoinWaitLoop_timeout T el j k 0 fuel hT
      (fun m hm => by simpa using hpre m hm) (by simpa using htmo) hfuel
    simp [hatt, hj, hr, hl]
  · intro eng dev T att intv fuel k auto w el j hj hatt hr htm hjlt hjk hfuel
    unfold RAK3172_LoRaWAN_StartJoin
    have hl := startJoinWaitLoop_success T el j k 0 fuel
      (fun m hm => by simpa using htm m hm)
      (fun m hm => by simpa using hjlt m hm) (by simpa using hjk) hfuel
    simp [hatt, hj, hr, hl]
  · intro eng dev att intv fuel auto w el j tr hne
    unfold RAK3172_LoRaWAN_StartJoin
    by_cases hatt : att = 0
    · simp [hatt]
    · by_cases hj : dev.isJoined
      · simp [hatt, hj]
      · have hj2 : dev.isJoined = false := by simpa using hj
        by_cases hr : (eng.reply (joinCmdString auto intv att)).status = RAK3172_Error.ok
        · cases hrec : startJoinWaitLoop 0 el j fuel 0 with
          | none => simp [hatt, hj2, hr, hrec]
          | some p =>
            obtain ⟨e, tr2⟩ := p
            have hnt : e ≠ RAK3172_Error.timeout := by
              intro hcontra
              exact absurd (hcontra ▸ hrec) (startJoinWaitLoop_no_timeout el j fuel 0 tr2)
            simp [hatt, hj2, hr, hrec, hnt]
        · simp [hatt, hj2, hr, hne]
  · intro eng dev T att intv fuel auto w el j e tr h
    unfold RAK3172_LoRaWAN_StartJoin at h
    by_cases hatt : att = 0
    · simp [hatt] at h
      obtain ⟨rfl, rfl⟩ := h
      simp
    · by_cases hj : dev.isJoined
      · simp [hatt, hj] at h
        obtain ⟨rfl, rfl⟩ := h
        simp
      · by_cases hr : (eng.reply (joinCmdString auto intv att)).status = RAK3172_Error.ok
        · simp only [hatt, hj, hr] at h
          cases hrec : startJoinWaitLoop T el j fuel 0 with
          | none => simp [hrec] at h
          | some p =>
            obtain ⟨e2, tr2⟩ := p
            simp [hrec] at h
            obtain ⟨rfl, rfl⟩ := h
            have hni := startJoinWaitLoop_no_hook T el j fuel 0 e2 tr2 hrec
            simp [hni]
        · simp [hatt, hj, hr] at h
          obtain ⟨rfl, rfl⟩ := h
          simp

/-- C5 witness: concrete runs — a no-op success on a joined device, a
timeout run that cancels the join after one poll, a success run after two
polls, a Timeout-0 run that cannot report a join-wait timeout, and the
hook-free trace of the success run. -/
theorem C5_start_join_behavior_witness :
    RAK3172_LoRaWAN_StartJoin engOk devJoined 7 3 true 8 false 4
        (fun _ => 0) (fun _ => false) = some (RAK3172_Error.ok, []) ∧
    RAK3172_LoRaWAN_StartJoin engOk devUnjoined 1 3 false 10 false 3
        (fun m => if m = 0 then 0 else 2000) (fun _ => false) =
      some (RAK3172_Error.timeout,
        Act.cmd (joinCmdString false 10 3) ::
          (List.replicate 1 Act.sleep ++ [Act.cmd "AT+JOIN=0:0:7:0"])) ∧
    RAK3172_LoRaWAN_StartJoin engOk devUnjoined 0 3 false 10 false 3
        (fun _ => 0) (fun m => decide (m = 1)) =
      some (RAK3172_Error.ok,
        Act.cmd (joinCmdString false 10 3) :: List.replicate 2 Act.sleep) ∧
    RAK3172_LoRaWAN_StartJoin engOk devUnjoined 0 3 false 10 false 3
        (fun _ => 0) (fun _ => false) ≠ some (RAK3172_Error.timeout, []) ∧
    Act.hook ∉
      (Act.cmd (joinCmdString false 10 3) :: List.replicate 2 Act.sleep) := by
  obtain ⟨h1, h2, h3, h4, h5⟩ := C5_start_join_behavior
  refine ⟨h1 engOk devJoined 7 3 8 4 true false (fun _ => 0) (fun _ => false)
      rfl (by decide), ?_, ?_, ?_, ?_⟩
  · exact h2 engOk devUnjoined 1 3 10 3 1 false false
      (fun m => if m = 0 then 0 else 2000) (fun _ => false)
      rfl (by decide) rfl (by decide) (by decide) (by decide) (by decide)
  · exact h3 engOk devUnjoined 0 3 10 3 1 false false
      (fun _ => 0) (fun m => decide (m = 1))
      rfl (by decide) rfl (by decide) (by decide) (by decide) (by decide)
  · exact h4 engOk devUnjoined 3 10 3 false false (fun _ => 0) (fun _ => false)
      [] (by decide)
  · exact h5 engOk devUnjoined 0 3 10 3 false false (fun _ => 0)
      (fun m => decide (m = 1)) RAK3172_Error.ok
      (Act.cmd (joinCmdString false 10 3) :: List.replicate 2 Act.sleep)
      (by decide)
